import Mathlib

/-!
Shallow embedding of `homeassistant/components/binary_sensor/mqtt.py`
(class `MqttBinarySensor`), together with an explicit model of the host
event loop (one-shot timers scheduled via `evt.async_call_later`) and of
the MQTT subscription helper it talks to, and proofs of the specified
properties of the message-to-state protocol.
-/

set_option autoImplicit false

namespace MqttBinarySensor

/-- Validated configuration record, the output of `PLATFORM_SCHEMA`:
fields read by `_setup_from_config`.  The value template is an opaque
payload-to-payload transform (`async_render_with_possible_json_value`). -/
structure Config where
  name : String
  state_topic : String
  device_class : Option String
  qos : Nat
  force_update : Bool
  off_delay : Option Nat
  payload_on : String
  payload_off : String
  value_template : Option (String → String)
  unique_id : Option String

/-- The scalar fields of `MqttBinarySensor`.  `state` is the tri-state
`self._state` (`none` = unknown, Python `None`); `sub_state` is the opaque
subscription handle `self._sub_state`; `delay_listener` is
`self._delay_listener`, holding (the id of) the cancel handle returned by
`evt.async_call_later`, or `none`. -/
structure Adapter where
  name : String
  state_topic : String
  device_class : Option String
  qos : Nat
  force_update : Bool
  off_delay : Option Nat
  payload_on : String
  payload_off : String
  template : Option (String → String)
  unique_id : Option String
  state : Option Bool
  sub_state : Option Nat
  delay_listener : Option Nat

/-- One scheduled one-shot timer of the host event loop: its id and the
absolute time at which it fires (`async_call_later` schedules it at
now + delay). -/
structure Timer where
  id : Nat
  fireAt : ℚ
  deriving DecidableEq

/-- The transport collaborator: the set of live subscription handles this
adapter has registered, plus a fresh-handle counter. -/
structure Transport where
  live : List Nat
  next_handle : Nat
  deriving DecidableEq

/-- The adapter together with its host-side resources: the timers it has
scheduled (and not yet canceled or fired), the transport, the warning log
(`_LOGGER.warning`), and a counter of `async_schedule_update_ha_state`
calls. -/
structure System where
  adapter : Adapter
  timers : List Timer
  next_timer : Nat
  transport : Transport
  log : List String
  updates : Nat

/-- Step 1 of the message handler: apply the configured value template to
the raw payload, identity when none is configured. -/
def applyTemplate (a : Adapter) (payload : String) : String :=
  match a.template with
  | some t => t payload
  | none => payload

/-- The diagnostic text of the `_LOGGER.warning` call on an unmatched
payload: names the entity and the state topic. -/
def warningText (a : Adapter) : String :=
  "No matching payload found for entity: " ++ a.name ++
    " with state_topic: " ++ a.state_topic

/-- Calling the cancel handle returned by `async_call_later`: removes the
timer with that id from the event loop. -/
def cancelTimer (s : System) (i : Nat) : System :=
  { s with timers := s.timers.filter (fun t => t.id != i) }

/-- Scheduling via `evt.async_call_later self.hass delay cb`: registers a
one-shot timer firing at `now + delay` and returns its (fresh) id. -/
def async_call_later (s : System) (delay : Nat) (now : ℚ) : System × Nat :=
  ({ s with timers := s.timers ++ [⟨s.next_timer, now + (delay : ℚ)⟩],
            next_timer := s.next_timer + 1 }, s.next_timer)

/-- The body of `off_delay_listener`: clear `self._delay_listener`, set
`self._state = False`, and call `async_schedule_update_ha_state`. -/
def off_delay_listener (s : System) : System :=
  { s with
      adapter := { s.adapter with delay_listener := none, state := some false },
      updates := s.updates + 1 }

/-- The event loop firing a due timer: the timer leaves the queue and its
callback (`off_delay_listener`) runs.  On an empty queue nothing happens. -/
def fireTimer (s : System) : System :=
  match s.timers with
  | [] => s
  | _ :: rest => off_delay_listener { s with timers := rest }

/-- Steps 3 to 5 of `state_message_received`, run only after the payload
matched: cancel any pending `_delay_listener`; then, if the new state is
`True` and `off_delay` is configured, schedule `off_delay_listener` after
`off_delay` seconds; finally `async_schedule_update_ha_state`. -/
def afterMatch (s : System) (now : ℚ) : System :=
  let s1 : System :=
    match s.adapter.delay_listener with
    | some i => { cancelTimer s i with
                    adapter := { s.adapter with delay_listener := none } }
    | none => s
  let s2 : System :=
    if s1.adapter.state = some true then
      match s1.adapter.off_delay with
      | some d =>
          let p := async_call_later s1 d now
          { p.1 with adapter := { p.1.adapter with delay_listener := some p.2 } }
      | none => s1
    else s1
  { s2 with updates := s2.updates + 1 }

/-- The body of `state_message_received`: template the payload, compare
against `self._payload_on` then `self._payload_off`; on a match set the
state and run steps 3 to 5; otherwise log a warning and return. -/
def state_message_received (s : System) (now : ℚ) (payload : String) : System :=
  let eff := applyTemplate s.adapter payload
  if eff = s.adapter.payload_on then
    afterMatch { s with adapter := { s.adapter with state := some true } } now
  else if eff = s.adapter.payload_off then
    afterMatch { s with adapter := { s.adapter with state := some false } } now
  else
    { s with log := warningText s.adapter :: s.log }

/-- The body of `_setup_from_config`: overwrite every scalar configuration
field from the validated config; `state`, `sub_state` and `delay_listener`
are not assigned. -/
def _setup_from_config (a : Adapter) (c : Config) : Adapter :=
  { a with
      name := c.name
      state_topic := c.state_topic
      device_class := c.device_class
      qos := c.qos
      force_update := c.force_update
      off_delay := c.off_delay
      payload_on := c.payload_on
      payload_off := c.payload_off
      template := c.value_template
      unique_id := c.unique_id }

/-- Modelled from the spec: `subscription.async_subscribe_topics` (module
`homeassistant.components.mqtt.subscription`, not part of this source):
per the subscription-handle invariant, the old handle is torn down and a
fresh one established with the transport; the new handle is returned. -/
def async_subscribe_topics (tr : Transport) (sub_state : Option Nat) :
    Transport × Nat :=
  let tr1 : Transport :=
    match sub_state with
    | some h => { tr with live := tr.live.filter (fun x => x != h) }
    | none => tr
  ({ live := tr1.next_handle :: tr1.live, next_handle := tr1.next_handle + 1 },
    tr1.next_handle)

/-- Modelled from the spec: `subscription.async_unsubscribe_topics`: a
single unsubscribe call tearing down the handle with the transport. -/
def async_unsubscribe_topics (tr : Transport) (sub_state : Option Nat) :
    Transport :=
  match sub_state with
  | some h => { tr with live := tr.live.filter (fun x => x != h) }
  | none => tr

/-- The body of `_subscribe_topics` (the activation entry point): replace
`self._sub_state` with a fresh subscription obtained from
`async_subscribe_topics`. -/
def _subscribe_topics (s : System) : System :=
  let p := async_subscribe_topics s.transport s.adapter.sub_state
  { s with transport := p.1, adapter := { s.adapter with sub_state := some p.2 } }

/-- The body of `async_will_remove_from_hass` (deactivation): a single
`async_unsubscribe_topics` call on the stored handle. -/
def async_will_remove_from_hass (s : System) : System :=
  { s with transport := async_unsubscribe_topics s.transport s.adapter.sub_state }

/-- The constructor `__init__`: every scalar field starts as `None`/blank
and is then loaded by `_setup_from_config`. -/
def initAdapter (c : Config) : Adapter :=
  _setup_from_config
    { name := "", state_topic := "", device_class := none, qos := 0,
      force_update := false, off_delay := none, payload_on := "",
      payload_off := "", template := none, unique_id := none,
      state := none, sub_state := none, delay_listener := none } c

/-- A freshly constructed entity with no scheduled timer, no live
subscription, an empty log and no update requests. -/
def initSystem (c : Config) : System :=
  { adapter := initAdapter c, timers := [], next_timer := 0,
    transport := { live := [], next_handle := 0 }, log := [], updates := 0 }

/-- Event-loop dispatch helper for timed traces: fire the pending timer if
its scheduled time has been reached by time `t`. -/
def flushDue (s : System) (t : ℚ) : System :=
  match s.timers with
  | [] => s
  | tm :: _ => if tm.fireAt ≤ t then fireTimer s else s

/-- Run the event loop up to time `t`: messages (sorted by time) are
delivered in order, firing the pending off-delay timer first whenever its
scheduled time comes before the next message, and at the end any timer due
by `t` fires. -/
def runUntil (s : System) (msgs : List (ℚ × String)) (t : ℚ) : System :=
  match msgs with
  | [] => flushDue s t
  | (tm, p) :: rest =>
      if tm ≤ t then
        runUntil (state_message_received (flushDue s tm) tm p) rest t
      else flushDue s t

/-- Reachability: every state obtainable from a freshly constructed entity
by the adapter's entry points — message delivery, a timer firing,
reconfiguration (`_setup_from_config`, as run by `discovery_update`),
(re)subscription, and removal. -/
inductive Reach : System → Prop where
  | init (c : Config) : Reach (initSystem c)
  | msg (s : System) (now : ℚ) (payload : String) :
      Reach s → Reach (state_message_received s now payload)
  | fire (s : System) : Reach s → Reach (fireTimer s)
  | config (s : System) (c : Config) :
      Reach s → Reach { s with adapter := _setup_from_config s.adapter c }
  | subscribe (s : System) : Reach s → Reach (_subscribe_topics s)
  | remove (s : System) : Reach s → Reach (async_will_remove_from_hass s)

/-- Iterated activation: `activateIter n s` runs `_subscribe_topics`
(the activation entry point) `n` times in succession. -/
def activateIter : Nat → System → System
  | 0, s => s
  | n + 1, s => activateIter n (_subscribe_topics s)

/-- Coupling invariant between `self._delay_listener` and the event loop:
when no cancel handle is stored no timer is scheduled, and when one is
stored it refers to the unique scheduled timer and the state is `True`. -/
def TimerInv (s : System) : Prop :=
  (s.adapter.delay_listener = none → s.timers = []) ∧
  (∀ i, s.adapter.delay_listener = some i →
     (∃ ft, s.timers = [⟨i, ft⟩]) ∧ s.adapter.state = some true)

/-- Coupling invariant between `self._sub_state` and the transport: the
stored handle is the unique live subscription. -/
def SubInv (s : System) : Prop :=
  ∃ h, s.adapter.sub_state = some h ∧ s.transport.live = [h]

/-- Sample configuration: `payload_on = "ON"`, `payload_off = "OFF"`,
`off_delay = 5`. -/
def delayConfig : Config :=
  { name := "motion", state_topic := "home/motion", device_class := none,
    qos := 0, force_update := false, off_delay := some 5, payload_on := "ON",
    payload_off := "OFF", value_template := none, unique_id := none }

/-- Sample configuration whose on and off tokens coincide. -/
def toggleConfig : Config :=
  { name := "s", state_topic := "t", device_class := none, qos := 0,
    force_update := false, off_delay := none, payload_on := "SAME",
    payload_off := "SAME", value_template := none, unique_id := none }

/-- The entity of `delayConfig` right after receiving an `"ON"` message at
time 0: state `True`, one pending off-delay timer. -/
def sysOn : System := state_message_received (initSystem delayConfig) 0 "ON"

/-- The adapter of `delayConfig` after an `"ON"` message: state `True` and
a stored cancel handle for timer 0. -/
def adapterA : Adapter :=
  { name := "motion", state_topic := "home/motion", device_class := none,
    qos := 0, force_update := false, off_delay := some 5, payload_on := "ON",
    payload_off := "OFF", template := none, unique_id := none,
    state := some true, sub_state := none, delay_listener := some 0 }

/-- The system after an `"ON"` message at time `T`: one timer scheduled at
`T + 5`. -/
def sysA (T : ℚ) : System :=
  { adapter := adapterA, timers := [⟨0, T + 5⟩], next_timer := 1,
    transport := { live := [], next_handle := 0 }, log := [], updates := 1 }

/-- The system after a second `"ON"` message at time `T + 2`: the first
timer is gone and the sole timer is scheduled at `T + 7`. -/
def sysB (T : ℚ) : System :=
  { adapter := { adapterA with delay_listener := some 1 },
    timers := [⟨1, T + 7⟩], next_timer := 2,
    transport := { live := [], next_handle := 0 }, log := [], updates := 2 }

lemma afterMatch_adapter_state (s : System) (now : ℚ) :
    (afterMatch s now).adapter.state = s.adapter.state := by
  unfold afterMatch
  cases hdl : s.adapter.delay_listener <;>
    simp only [hdl] <;>
      split <;> (try split) <;> simp [cancelTimer, async_call_later]

lemma afterMatch_log (s : System) (now : ℚ) :
    (afterMatch s now).log = s.log := by
  unfold afterMatch
  cases hdl : s.adapter.delay_listener <;>
    simp only [hdl] <;>
      split <;> (try split) <;> simp [cancelTimer, async_call_later]

lemma smr_state (s : System) (now : ℚ) (payload : String) :
    (state_message_received s now payload).adapter.state =
      (if applyTemplate s.adapter payload = s.adapter.payload_on then some true
       else if applyTemplate s.adapter payload = s.adapter.payload_off then
         some false
       else s.adapter.state) := by
  unfold state_message_received
  by_cases hon : applyTemplate s.adapter payload = s.adapter.payload_on
  · simp [hon, afterMatch_adapter_state]
  · by_cases hoff : applyTemplate s.adapter payload = s.adapter.payload_off
    · have hne : s.adapter.payload_off ≠ s.adapter.payload_on :=
        fun h => hon (hoff.trans h)
      simp [hon, hoff, hne, afterMatch_adapter_state]
    · simp [hon, hoff]

lemma smr_log (s : System) (now : ℚ) (payload : String) :
    (state_message_received s now payload).log =
      (if applyTemplate s.adapter payload = s.adapter.payload_on ∨
          applyTemplate s.adapter payload = s.adapter.payload_off then s.log
       else warningText s.adapter :: s.log) := by
  unfold state_message_received
  by_cases hon : applyTemplate s.adapter payload = s.adapter.payload_on
  · simp [hon, afterMatch_log]
  · by_cases hoff : applyTemplate s.adapter payload = s.adapter.payload_off
    · have hne : s.adapter.payload_off ≠ s.adapter.payload_on :=
        fun h => hon (hoff.trans h)
      simp [hon, hoff, hne, afterMatch_log]
    · simp [hon, hoff]

lemma fireTimer_state (s : System) :
    (fireTimer s).adapter.state =
      (if s.timers = [] then s.adapter.state else some false) := by
  unfold fireTimer
  split
  next ht => simp [ht]
  next t rest ht => simp [ht, off_delay_listener]

lemma afterMatch_timerInv (s : System) (now : ℚ)
    (h1 : s.adapter.delay_listener = none → s.timers = [])
    (h2 : ∀ i, s.adapter.delay_listener = some i → ∃ ft, s.timers = [⟨i, ft⟩]) :
    TimerInv (afterMatch s now) := by
  unfold afterMatch
  cases hdl : s.adapter.delay_listener with
  | none =>
      have ht : s.timers = [] := h1 hdl
      by_cases hst : s.adapter.state = some true
      · cases hod : s.adapter.off_delay with
        | none => simp [TimerInv, hst, hod, ht, hdl]
        | some d => simp [TimerInv, hst, hod, ht, hdl, async_call_later]
      · simp [TimerInv, hst, ht, hdl]
  | some i =>
      obtain ⟨ft, ht⟩ := h2 i hdl
      by_cases hst : s.adapter.state = some true
      · cases hod : s.adapter.off_delay with
        | none => simp [TimerInv, hst, hod, ht, hdl, cancelTimer]
        | some d =>
            simp [TimerInv, hst, hod, ht, hdl, cancelTimer, async_call_later]
      · simp [TimerInv, hst, ht, hdl, cancelTimer]

lemma smr_timerInv (s : System) (now : ℚ) (payload : String)
    (h : TimerInv s) : TimerInv (state_message_received s now payload) := by
  obtain ⟨h1, h2⟩ := h
  unfold state_message_received
  by_cases hon : applyTemplate s.adapter payload = s.adapter.payload_on
  · rw [if_pos hon]
    exact afterMatch_timerInv _ now (by simpa using h1)
      (by simpa using fun i hi => (h2 i hi).1)
  · by_cases hoff : applyTemplate s.adapter payload = s.adapter.payload_off
    · rw [if_neg hon, if_pos hoff]
      exact afterMatch_timerInv _ now (by simpa using h1)
        (by simpa using fun i hi => (h2 i hi).1)
    · rw [if_neg hon, if_neg hoff]
      exact ⟨h1, h2⟩

lemma fireTimer_timerInv (s : System) (h : TimerInv s) :
    TimerInv (fireTimer s) := by
  obtain ⟨h1, h2⟩ := h
  unfold fireTimer
  split
  · exact ⟨h1, h2⟩
  next t rest ht =>
    cases hdl : s.adapter.delay_listener with
    | none => exact absurd (h1 hdl) (by simp [ht])
    | some i =>
        obtain ⟨⟨ft, hft⟩, _⟩ := h2 i hdl
        rw [ht] at hft
        have hrest : rest = [] := by
          simpa using congrArg List.tail hft
        subst hrest
        simp [TimerInv, off_delay_listener]

lemma reach_timerInv (s : System) (h : Reach s) : TimerInv s := by
  induction h with
  | init c =>
      exact ⟨fun _ => rfl, fun i hi => by
        simp [initSystem, initAdapter, _setup_from_config] at hi⟩
  | msg s now payload _ ih => exact smr_timerInv s now payload ih
  | fire s _ ih => exact fireTimer_timerInv s ih
  | config s c _ ih => exact ⟨ih.1, ih.2⟩
  | subscribe s _ ih => exact ⟨ih.1, ih.2⟩
  | remove s _ ih => exact ⟨ih.1, ih.2⟩

lemma timerInv_length (s : System) (h : TimerInv s) : s.timers.length ≤ 1 := by
  obtain ⟨h1, h2⟩ := h
  cases hdl : s.adapter.delay_listener with
  | none => rw [h1 hdl]; simp
  | some i =>
      obtain ⟨⟨ft, hft⟩, _⟩ := h2 i hdl
      rw [hft]
      simp

lemma afterMatch_timers (s : System) (now : ℚ)
    (h1 : s.adapter.delay_listener = none → s.timers = [])
    (h2 : ∀ i, s.adapter.delay_listener = some i → ∃ ft, s.timers = [⟨i, ft⟩]) :
    (afterMatch s now).timers =
      (if s.adapter.state = some true then
         match s.adapter.off_delay with
         | some d => [⟨s.next_timer, now + (d : ℚ)⟩]
         | none => []
       else []) := by
  unfold afterMatch
  cases hdl : s.adapter.delay_listener with
  | none =>
      have ht : s.timers = [] := h1 hdl
      by_cases hst : s.adapter.state = some true
      · cases hod : s.adapter.off_delay with
        | none => simp [hst, hod, ht, hdl]
        | some d => simp [hst, hod, ht, hdl, async_call_later]
      · simp [hst, ht, hdl]
  | some i =>
      obtain ⟨ft, ht⟩ := h2 i hdl
      by_cases hst : s.adapter.state = some true
      · cases hod : s.adapter.off_delay with
        | none => simp [hst, hod, ht, hdl, cancelTimer]
        | some d => simp [hst, hod, ht, hdl, cancelTimer, async_call_later]
      · simp [hst, ht, hdl, cancelTimer]

lemma smr_timers (s : System) (now : ℚ) (payload : String) (h : TimerInv s) :
    (state_message_received s now payload).timers =
      (if applyTemplate s.adapter payload = s.adapter.payload_on then
         match s.adapter.off_delay with
         | some d => [⟨s.next_timer, now + (d : ℚ)⟩]
         | none => []
       else if applyTemplate s.adapter payload = s.adapter.payload_off then []
       else s.timers) := by
  obtain ⟨h1, h2⟩ := h
  unfold state_message_received
  by_cases hon : applyTemplate s.adapter payload = s.adapter.payload_on
  · rw [if_pos hon, if_pos hon]
    rw [afterMatch_timers _ now (by simpa using h1)
      (by simpa using fun i hi => (h2 i hi).1)]
    simp
  · by_cases hoff : applyTemplate s.adapter payload = s.adapter.payload_off
    · rw [if_neg hon, if_pos hoff, if_neg hon, if_pos hoff]
      rw [afterMatch_timers _ now (by simpa using h1)
        (by simpa using fun i hi => (h2 i hi).1)]
      simp
    · rw [if_neg hon, if_neg hoff, if_neg hon, if_neg hoff]

lemma subscribe_subInv (s : System) (h : SubInv s) :
    SubInv (_subscribe_topics s) := by
  obtain ⟨hd, hsub, hlive⟩ := h
  refine ⟨s.transport.next_handle, ?_, ?_⟩ <;>
    simp [_subscribe_topics, async_subscribe_topics, hsub, hlive]

lemma subscribe_init_subInv (c : Config) :
    SubInv (_subscribe_topics (initSystem c)) := by
  refine ⟨0, ?_, ?_⟩ <;>
    simp [_subscribe_topics, async_subscribe_topics, initSystem, initAdapter,
      _setup_from_config]

lemma activateIter_subInv (n : Nat) (s : System) (h : SubInv s) :
    SubInv (activateIter n s) := by
  induction n generalizing s with
  | zero => exact h
  | succ m ih => exact ih _ (subscribe_subInv s h)

lemma smrA (T : ℚ) :
    state_message_received (initSystem delayConfig) T "ON" = sysA T := by
  simp [state_message_received, applyTemplate, initSystem, initAdapter,
    _setup_from_config, afterMatch, async_call_later, delayConfig, sysA,
    adapterA]

lemma smrB (T : ℚ) :
    state_message_received (sysA T) (T + 2) "ON" = sysB T := by
  simp [state_message_received, applyTemplate, afterMatch, cancelTimer,
    async_call_later, sysA, sysB, adapterA]
  ring

/-- Claim C1: for every delivered payload, after the configured value
template (identity when none), the state becomes `True` exactly on the
`payload_on` branch, `False` on the `payload_off` branch, and is otherwise
unchanged while a warning naming the entity and the state topic is logged
— for every string payload, every prior state, and every configuration. -/
theorem payload_comparison_drives_state (s : System) (now : ℚ)
    (payload : String) :
    (state_message_received s now payload).adapter.state =
      (if applyTemplate s.adapter payload = s.adapter.payload_on then some true
       else if applyTemplate s.adapter payload = s.adapter.payload_off then
         some false
       else s.adapter.state) ∧
    (state_message_received s now payload).log =
      (if applyTemplate s.adapter payload = s.adapter.payload_on ∨
          applyTemplate s.adapter payload = s.adapter.payload_off then s.log
       else warningText s.adapter :: s.log) ∧
    warningText s.adapter =
      "No matching payload found for entity: " ++ s.adapter.name ++
        " with state_topic: " ++ s.adapter.state_topic :=
  ⟨smr_state s now payload, smr_log s now payload, rfl⟩

/-- Claim C2: in every reachable state at most one off-delay timer is
live, and a message whose effective payload matches leaves exactly the
newly scheduled timer (state `True` with `off_delay` configured) or none
at all — the previously pending timer is always canceled first. -/
theorem single_pending_off_timer (s : System) (now : ℚ) (payload : String)
    (h : Reach s) :
    s.timers.length ≤ 1 ∧
    (state_message_received s now payload).timers =
      (if applyTemplate s.adapter payload = s.adapter.payload_on then
         match s.adapter.off_delay with
         | some d => [⟨s.next_timer, now + (d : ℚ)⟩]
         | none => []
       else if applyTemplate s.adapter payload = s.adapter.payload_off then []
       else s.timers) :=
  ⟨timerInv_length s (reach_timerInv s h),
    smr_timers s now payload (reach_timerInv s h)⟩

/-- Witness for C2 at a concrete reachable state: the entity of
`delayConfig` after an `"ON"` message at time 0, receiving `"OFF"` at
time 10. -/
theorem single_pending_off_timer_witness :
    sysOn.timers.length ≤ 1 ∧
    (state_message_received sysOn 10 "OFF").timers =
      (if applyTemplate sysOn.adapter "OFF" = sysOn.adapter.payload_on then
         match sysOn.adapter.off_delay with
         | some d => [⟨sysOn.next_timer, (10 : ℚ) + (d : ℚ)⟩]
         | none => []
       else if applyTemplate sysOn.adapter "OFF" = sysOn.adapter.payload_off
       then []
       else sysOn.timers) :=
  single_pending_off_timer sysOn 10 "OFF"
    (Reach.msg _ 0 "ON" (Reach.init delayConfig))

/-- Claim C3, counterexample: the off-delay timer callback is an entry
point other than a message, yet firing it on the reachable state `sysOn`
changes `currentState` from `True` to `False`; so "no entry point other
than a matching message changes currentState", with `onOffDelayExpired`
among the quantified entry points, fails on the code. -/
theorem state_only_from_message_counterexample :
    Reach sysOn ∧ sysOn.adapter.state = some true ∧
    sysOn.timers ≠ [] ∧
    (fireTimer sysOn).adapter.state = some false :=
  ⟨Reach.msg _ 0 "ON" (Reach.init delayConfig), by decide, by decide,
    by decide⟩

/-- Claim C3, amended: `currentState` changes only through a matching
message (to the matched value) or through the off-delay timer callback
firing (to `False`); reconfiguration, (re)subscription and removal never
change it, and an unmatched payload leaves it unchanged, logging a
warning. -/
theorem state_change_entry_points (s : System) (c : Config) (now : ℚ)
    (payload : String) :
    ({ s with adapter := _setup_from_config s.adapter c }).adapter.state =
      s.adapter.state ∧
    (_subscribe_topics s).adapter.state = s.adapter.state ∧
    (async_will_remove_from_hass s).adapter.state = s.adapter.state ∧
    (state_message_received s now payload).adapter.state =
      (if applyTemplate s.adapter payload = s.adapter.payload_on then some true
       else if applyTemplate s.adapter payload = s.adapter.payload_off then
         some false
       else s.adapter.state) ∧
    (state_message_received s now payload).log =
      (if applyTemplate s.adapter payload = s.adapter.payload_on ∨
          applyTemplate s.adapter payload = s.adapter.payload_off then s.log
       else warningText s.adapter :: s.log) ∧
    (fireTimer s).adapter.state =
      (if s.timers = [] then s.adapter.state else some false) :=
  ⟨rfl, rfl, rfl, smr_state s now payload, smr_log s now payload,
    fireTimer_state s⟩

/-- Claim C4: a message whose effective payload matches neither token
only appends one warning to the log: the adapter (state, pending timer,
subscription), the scheduled timers and the update counter are exactly as
before, and steps 3 to 5 of the handler do not run. -/
theorem unmatched_payload_only_logs (s : System) (now : ℚ) (payload : String)
    (hon : applyTemplate s.adapter payload ≠ s.adapter.payload_on)
    (hoff : applyTemplate s.adapter payload ≠ s.adapter.payload_off) :
    state_message_received s now payload =
      { s with log := warningText s.adapter :: s.log } := by
  unfold state_message_received
  rw [if_neg hon, if_neg hoff]

/-- Witness for C4: the fresh `delayConfig` entity receiving the
unmatched payload `"TOGGLE"`. -/
theorem unmatched_payload_only_logs_witness :
    applyTemplate (initSystem delayConfig).adapter "TOGGLE" ≠
      (initSystem delayConfig).adapter.payload_on ∧
    applyTemplate (initSystem delayConfig).adapter "TOGGLE" ≠
      (initSystem delayConfig).adapter.payload_off ∧
    state_message_received (initSystem delayConfig) 0 "TOGGLE" =
      { initSystem delayConfig with
          log := warningText (initSystem delayConfig).adapter ::
            (initSystem delayConfig).log } :=
  ⟨by decide, by decide,
    unmatched_payload_only_logs (initSystem delayConfig) 0 "TOGGLE"
      (by decide) (by decide)⟩

/-- Claim C5: whenever the off-delay callback runs it clears the stored
cancel handle, sets the state to `False` and requests a host state
refresh — from every system state. -/
theorem off_delay_listener_effect (s : System) :
    (off_delay_listener s).adapter.delay_listener = none ∧
    (off_delay_listener s).adapter.state = some false ∧
    (off_delay_listener s).updates = s.updates + 1 :=
  ⟨rfl, rfl, rfl⟩

/-- Claim C6: with `off_delay = 5`, after `"ON"` messages at times `T`
and `T + 2`, the state is still `True` at `T + 5.5` (the first timer was
canceled), becomes `False` at `T + 7.1` (the second timer fired at
`T + 7`), and right after the second message the only scheduled timer is
the one firing at `T + 7`. -/
theorem timer_supersession (T : ℚ) :
    (runUntil (initSystem delayConfig) [(T, "ON"), (T + 2, "ON")]
        (T + 11/2)).adapter.state = some true ∧
    (runUntil (initSystem delayConfig) [(T, "ON"), (T + 2, "ON")]
        (T + 71/10)).adapter.state = some false ∧
    (runUntil (initSystem delayConfig) [(T, "ON"), (T + 2, "ON")]
        (T + 2)).timers = [⟨1, T + 7⟩] := by
  have hfl0 : ∀ u : ℚ,
      flushDue (initSystem delayConfig) u = initSystem delayConfig := by
    intro u
    simp [flushDue, initSystem]
  have hflA : ∀ u : ℚ, ¬ (T + 5 ≤ u) → flushDue (sysA T) u = sysA T := by
    intro u hu
    simp [flushDue, sysA, if_neg hu]
  have hflB : ∀ u : ℚ, ¬ (T + 7 ≤ u) → flushDue (sysB T) u = sysB T := by
    intro u hu
    simp [flushDue, sysB, if_neg hu]
  have hflBfire : ∀ u : ℚ, T + 7 ≤ u →
      flushDue (sysB T) u = off_delay_listener { sysB T with timers := [] } := by
    intro u hu
    simp [flushDue, sysB, if_pos hu, fireTimer]
  refine ⟨?_, ?_, ?_⟩
  · rw [runUntil, if_pos (by linarith : T ≤ T + 11/2), hfl0, smrA,
      runUntil, if_pos (by linarith : T + 2 ≤ T + 11/2),
      hflA _ (by linarith), smrB, runUntil, hflB _ (by linarith)]
    rfl
  · rw [runUntil, if_pos (by linarith : T ≤ T + 71/10), hfl0, smrA,
      runUntil, if_pos (by linarith : T + 2 ≤ T + 71/10),
      hflA _ (by linarith), smrB, runUntil, hflBfire _ (by linarith)]
    rfl
  · rw [runUntil, if_pos (by linarith : T ≤ T + 2), hfl0, smrA,
      runUntil, if_pos (le_refl (T + 2)),
      hflA _ (by linarith), smrB, runUntil, hflB _ (by linarith)]
    rfl

/-- Claim C7: however many times activation runs in succession, each call
supersedes the previous subscription, so exactly one subscription is live
afterwards and one removal call fully unsubscribes the adapter. -/
theorem activate_idempotent (c : Config) (n : Nat) :
    (activateIter (n + 1) (initSystem c)).transport.live.length = 1 ∧
    (async_will_remove_from_hass
        (activateIter (n + 1) (initSystem c))).transport.live = [] := by
  have hs : SubInv (activateIter (n + 1) (initSystem c)) :=
    activateIter_subInv n _ (subscribe_init_subInv c)
  obtain ⟨hh, hsub, hlive⟩ := hs
  constructor
  · rw [hlive]
    rfl
  · simp [async_will_remove_from_hass, async_unsubscribe_topics, hsub, hlive]

/-- Claim C8: `_setup_from_config` overwrites every scalar configuration
field from the new config and leaves `currentState`, the subscription
handle and the pending off-delay timer handle untouched, for every prior
adapter state and every validated config. -/
theorem setup_from_config_frame (a : Adapter) (c : Config) :
    (_setup_from_config a c).name = c.name ∧
    (_setup_from_config a c).state_topic = c.state_topic ∧
    (_setup_from_config a c).device_class = c.device_class ∧
    (_setup_from_config a c).qos = c.qos ∧
    (_setup_from_config a c).force_update = c.force_update ∧
    (_setup_from_config a c).off_delay = c.off_delay ∧
    (_setup_from_config a c).payload_on = c.payload_on ∧
    (_setup_from_config a c).payload_off = c.payload_off ∧
    (_setup_from_config a c).template = c.value_template ∧
    (_setup_from_config a c).unique_id = c.unique_id ∧
    (_setup_from_config a c).state = a.state ∧
    (_setup_from_config a c).sub_state = a.sub_state ∧
    (_setup_from_config a c).delay_listener = a.delay_listener :=
  ⟨rfl, rfl, rfl, rfl, rfl, rfl, rfl, rfl, rfl, rfl, rfl, rfl, rfl⟩

/-- Claim C9: in every reachable state, a live pending off-delay timer
(whether observed through the stored cancel handle or through the
scheduled timer itself) implies `currentState` is `True`. -/
theorem timer_implies_on (s : System) (h : Reach s) :
    (s.adapter.delay_listener ≠ none → s.adapter.state = some true) ∧
    (s.timers ≠ [] → s.adapter.state = some true) := by
  obtain ⟨h1, h2⟩ := reach_timerInv s h
  constructor
  · intro hd
    cases hdl : s.adapter.delay_listener with
    | none => exact absurd hdl hd
    | some i => exact (h2 i hdl).2
  · intro ht
    cases hdl : s.adapter.delay_listener with
    | none => exact absurd (h1 hdl) ht
    | some i => exact (h2 i hdl).2

/-- Witness for C9 at the reachable state `sysOn`, which has a live
pending timer. -/
theorem timer_implies_on_witness :
    sysOn.adapter.delay_listener ≠ none ∧ sysOn.adapter.state = some true :=
  ⟨by decide,
    (timer_implies_on sysOn (Reach.msg _ 0 "ON" (Reach.init delayConfig))).1
      (by decide)⟩

/-- Claim C10: when `payload_on` and `payload_off` coincide, a message
matching the common token sets the state to `True`, never `False`: the
comparison with `payload_on` runs first and short-circuits the other. -/
theorem payload_on_precedence (s : System) (now : ℚ) (payload : String)
    (_heq : s.adapter.payload_on = s.adapter.payload_off)
    (hp : applyTemplate s.adapter payload = s.adapter.payload_on) :
    (state_message_received s now payload).adapter.state = some true := by
  unfold state_message_received
  rw [if_pos hp]
  rw [afterMatch_adapter_state]

/-- Witness for C10: `toggleConfig` has identical on and off tokens, and
the common token `"SAME"` yields state `True`. -/
theorem payload_on_precedence_witness :
    (initSystem toggleConfig).adapter.payload_on =
      (initSystem toggleConfig).adapter.payload_off ∧
    applyTemplate (initSystem toggleConfig).adapter "SAME" =
      (initSystem toggleConfig).adapter.payload_on ∧
    (state_message_received (initSystem toggleConfig) 0 "SAME").adapter.state =
      some true :=
  ⟨by decide, by decide,
    payload_on_precedence (initSystem toggleConfig) 0 "SAME" (by decide)
      (by decide)⟩

end MqttBinarySensor
